import Mathlib

/-!
Verification of the pr0gramm-kv versioned key-value store.

The development shallowly embeds the Go sources (`main.go`, the API handlers
and the `KVStore` in the api/kv file, and the SQL migration) into Lean.

The database table `kv_data` has primary key `(token, key)` and columns
`version INT`, `created TIMESTAMP`, `payload BYTEA`; a store state is
therefore a map from `(token, key)` to at most one record.  `created` plays
no role in any property below and is omitted.  Tokens are kept in their
canonical rendered string form (`Token.String()` of a parsed UUID, which is
the lowercase 8-4-4-4-12 rendering); keys are plain strings; payloads are
byte lists; versions are Go `int` values, embedded as `Int`.

`KVStore.Put` runs the single SQL statement

  INSERT INTO kv_data (token, key, version, created, payload)
  VALUES ($1, $2, $3+1, $4, $5)
  ON CONFLICT (token, key) DO UPDATE SET
    created=EXCLUDED.created, payload=EXCLUDED.payload, version=EXCLUDED.version
    WHERE (kv_data.version=$3 OR $3=0)
  RETURNING kv_data.version

whose PostgreSQL semantics are: if no row with this primary key exists, the
row `(token, key, $3+1, payload)` is inserted (the WHERE clause guards only
the DO UPDATE branch); if a row exists, it is updated to version `$3+1` when
`kv_data.version = $3 OR $3 = 0` holds of the existing row, and otherwise no
row is affected, `tx.Get` reports `sql.ErrNoRows`, and the Go code turns
that into `ErrVersionConflict` (rolling the transaction back, so the store
is unchanged).  `RETURNING` yields the version of the inserted/updated row,
which is `$3+1` in both success branches.
-/

deriving instance DecidableEq for Except

namespace Kv

/-- A row of `kv_data` for one `(token, key)`: the stored `version INT` and
`payload BYTEA` (the `created` timestamp is irrelevant to every property
considered here). -/
structure Record where
  version : Int
  payload : List Nat
deriving DecidableEq, Repr

/-- Errors of the store/handler layer, from the `var Err... = errors.New`
declarations: `ErrNoSuchKey`, `ErrVersionConflict`, `ErrValueTooLarge`. -/
inductive KvError where
  | noSuchKey
  | versionConflict
  | valueTooLarge
deriving DecidableEq, Repr

/-- Database state: at most one `Record` per `(token, key)` primary key. -/
abbrev Store := String → String → Option Record

/-- The empty `kv_data` table. -/
def emptyStore : Store := fun _ _ => none

/-- Insert-or-replace the row for `(t, k)` (what a successful INSERT or
UPDATE of the single-row statement does to the table). -/
def setRecord (s : Store) (t k : String) (r : Record) : Store :=
  fun t' k' => if t' = t ∧ k' = k then some r else s t' k'

/-- `KVStore.Put(token, key, value, version)`: the SQL upsert described in
the module docstring.  Absent row: insert `version+1` unconditionally.
Present row `r`: update to `version+1` iff `r.version = version ∨ version = 0`,
else `sql.ErrNoRows` becomes `ErrVersionConflict` and the transaction is
rolled back.  Returns the new store and the `(updatedVersion, err)` result. -/
def put (s : Store) (t k : String) (value : List Nat) (version : Int) :
    Store × Except KvError Int :=
  match s t k with
  | none =>
      (setRecord s t k ⟨version + 1, value⟩, Except.ok (version + 1))
  | some r =>
      if r.version = version ∨ version = 0 then
        (setRecord s t k ⟨version + 1, value⟩, Except.ok (version + 1))
      else
        (s, Except.error KvError.versionConflict)

/-- `KVStore.Get(token, key)`: `SELECT payload, version FROM kv_data WHERE
token=$1 AND key=$2`; `sql.ErrNoRows` becomes `ErrNoSuchKey`. -/
def get (s : Store) (t k : String) : Except KvError (List Nat × Int) :=
  match s t k with
  | some r => Except.ok (r.payload, r.version)
  | none => Except.error KvError.noSuchKey

/-- `const maxValueSize = 1024 * 256`. -/
def maxValueSize : Int := 1024 * 256

/-- `API.PostValue` after parameter extraction: checks the declared
`r.ContentLength` against `maxValueSize` before reading the body, then
buffers the body and calls `KVStore.Put`.  `cl` is the declared content
length (`int64` in Go), `body` the buffered payload bytes. -/
def postValue (s : Store) (t k : String) (version : Int) (cl : Int)
    (body : List Nat) : Store × Except KvError Int :=
  if cl > maxValueSize then
    (s, Except.error KvError.valueTooLarge)
  else
    put s t k body version

/-- Outcome of the `GetValueVersion` handler body: `result` is the
`resultValues` pointer handed to `httputil.ExtractAndCall` (`none` models
the Go `nil` interface value), `cacheImmutable` records whether the handler
set `Cache-Control: public, max-age=31536000, immutable`. -/
structure VersionedReadResponse where
  result : Option (Int × List Nat)
  cacheImmutable : Bool
deriving DecidableEq, Repr

/-- `API.GetValueVersion` after parameter extraction.  It calls
`KVStore.Get`; on error that error propagates.  When the stored version
differs from the requested one the Go code runs
`return nil, errors.WithMessage(err, "version mismatch")` with `err == nil`,
and `errors.WithMessage(nil, msg)` returns `nil`: the handler yields a nil
result with a nil error and without the immutable cache header.  Otherwise
it sets the immutable cache header and returns `(version, payload)`. -/
def getValueVersion (s : Store) (t k : String) (reqVersion : Int) :
    Except KvError VersionedReadResponse :=
  match get s t k with
  | Except.error e => Except.error e
  | Except.ok (payload, version) =>
      if version ≠ reqVersion then
        Except.ok ⟨none, false⟩
      else
        Except.ok ⟨some (version, payload), true⟩

/-- The version-pinned path the `GetValue` handler renders with
`fmt.Sprintf("%s/token/%s/key/%s/version/%d", ...)` (here without the
`X-Forwarded-Prefix` part, which the caller prepends). -/
def pinnedPath (t k : String) (version : Int) : String :=
  "/token/" ++ t ++ "/key/" ++ k ++ "/version/" ++ toString version

/-- Outcome of the `GetValue` handler body: either a 307 redirect carrying
the `Location` header, or a store failure handed to
`httputil.WriteGenericError`. -/
inductive GetValueResponse where
  | redirect (location : String)
  | failure (e : KvError)
deriving DecidableEq, Repr

/-- `API.GetValue` after parameter extraction: resolves the current version
via `KVStore.Get`; on success sets `Location` to
`prefix ++ pinnedPath` and answers `http.StatusTemporaryRedirect`; on error
delegates to the generic error writer. -/
def getValue (s : Store) (t k : String) (pfx : String) : GetValueResponse :=
  match get s t k with
  | Except.error e => GetValueResponse.failure e
  | Except.ok (_, version) =>
      GetValueResponse.redirect (pfx ++ pinnedPath t k version)

/-- The `httputil.ErrorMapping` entries registered in `init()`:
`ErrNoSuchKey ↦ http.StatusNotFound`, `ErrVersionConflict ↦
http.StatusConflict`, `ErrValueTooLarge ↦ http.StatusRequestEntityTooLarge`. -/
def errorMapping : KvError → Nat
  | KvError.noSuchKey => 404
  | KvError.versionConflict => 409
  | KvError.valueTooLarge => 413

/-- HTTP status produced by the `GetValue` handler: 307 on the redirect
path, otherwise the registered status of the store error. -/
def getValueStatus (s : Store) (t k : String) (pfx : String) : Nat :=
  match getValue s t k pfx with
  | GetValueResponse.redirect _ => 307
  | GetValueResponse.failure e => errorMapping e

/-! ## Request extraction and validation

The handlers declare `requestValues` structs whose fields are filled from
path parameters by the startup library's mapper and then validated:

* `Token Token \`path:"token" validate:"required"\`` — the custom decoder
  registered in `init()` runs `uuid.Parse`; `validate:"required"` further
  rejects the zero value of the 16-byte UUID array;
* `Key Key \`path:"key" validate:"required"\`` — the custom decoder accepts
  any string; `required` rejects the empty string;
* write: `Version int \`path:"version"\`` — decimal integer decoding, no
  validation tag at all;
* pinned read: `Version int \`path:"version" validate:"required,min=1"\`` —
  additionally requires the parsed value to be at least 1.

Any decoding or validation failure answers 400 before the handler body
(and hence the store) runs. -/

/-- Hexadecimal digit, as accepted in a UUID text form. -/
def isHexDigit (c : Char) : Bool :=
  c.isDigit || ('a' ≤ c && c ≤ 'f') || ('A' ≤ c && c ≤ 'F')

/-- Modelled from the spec: the tenant segment "must parse as a well-formed
128-bit identifier (UUID)" (`uuid.Parse` of github.com/google/uuid is not
under src/; `init()` in src wires it in as the `Token` decoder).  Canonical
text form: 36 characters, dashes at positions 8, 13, 18 and 23, hex digits
elsewhere. -/
def uuidWellFormed (str : String) : Bool :=
  str.length = 36 &&
    str.toList.enum.all fun p =>
      if p.1 = 8 ∨ p.1 = 13 ∨ p.1 = 18 ∨ p.1 = 23 then p.2 = '-'
      else isHexDigit p.2

/-- A well-formed UUID string denotes a nonzero 128-bit value iff some hex
digit is nonzero; `validate:"required"` on the `Token` field rejects the
zero UUID (the zero value of the `[16]byte` array). -/
def uuidNonZero (str : String) : Bool :=
  str.toList.any fun c => c ≠ '-' && c ≠ '0'

/-- Value of a nonempty all-digit character list. -/
def parseDigits (cs : List Char) : Option Nat :=
  if cs ≠ [] ∧ cs.all Char.isDigit then
    some (cs.foldl (fun acc c => acc * 10 + (c.toNat - 48)) 0)
  else none

/-- Modelled from the spec: decimal decoding of the `Version int` path
field (the startup mapper library is not under src/); Go integer syntax,
an optional `+` or `-` sign followed by decimal digits. -/
def parseGoInt (str : String) : Option Int :=
  match str.toList with
  | [] => none
  | c :: rest =>
      if c = '-' then (parseDigits rest).map fun n => -(n : Int)
      else if c = '+' then (parseDigits rest).map fun n => (n : Int)
      else (parseDigits (c :: rest)).map fun n => (n : Int)

/-- Extraction/validation for `PostValue`: token parses as a nonzero UUID,
key nonempty, version any Go integer (its field carries no validation tag).
`uuid.Parse` is case-insensitive and `Token.String()` renders the canonical
lowercase form; the embedding takes the token segment already in that
canonical form, so the string itself serves as the 128-bit tenant value. -/
def extractWrite (tokenStr keyStr versionStr : String) :
    Option (String × String × Int) :=
  match parseGoInt versionStr with
  | none => none
  | some v =>
      if uuidWellFormed tokenStr ∧ uuidNonZero tokenStr ∧ keyStr ≠ "" then
        some (tokenStr, keyStr, v)
      else none

/-- Extraction/validation for `GetValue` (no version segment). -/
def extractRead (tokenStr keyStr : String) : Option (String × String) :=
  if uuidWellFormed tokenStr ∧ uuidNonZero tokenStr ∧ keyStr ≠ "" then
    some (tokenStr, keyStr)
  else none

/-- Extraction/validation for `GetValueVersion`: as for a write, plus
`validate:"required,min=1"` on the version, i.e. the parsed value must be
at least 1. -/
def extractReadVersion (tokenStr keyStr versionStr : String) :
    Option (String × String × Int) :=
  match parseGoInt versionStr with
  | none => none
  | some v =>
      if uuidWellFormed tokenStr ∧ uuidNonZero tokenStr ∧ keyStr ≠ "" ∧ 1 ≤ v then
        some (tokenStr, keyStr, v)
      else none

/-- Full `POST /token/:token/key/:key/version/:version` pipeline: extraction
and validation (400 on failure, store untouched), then the handler body;
a domain error is answered with its `httputil.ErrorMapping` status, success
with 200.  Result: the new store and the HTTP status. -/
def handlePost (s : Store) (tokenStr keyStr versionStr : String) (cl : Int)
    (body : List Nat) : Store × Nat :=
  match extractWrite tokenStr keyStr versionStr with
  | none => (s, 400)
  | some (t, k, v) =>
      match postValue s t k v cl body with
      | (s2, Except.ok _) => (s2, 200)
      | (s2, Except.error e) => (s2, errorMapping e)

/-- Full `GET /token/:token/key/:key/version/:version` pipeline: extraction
and validation (400 on failure), then the handler body.  Result: HTTP
status, the `resultValues` payload (if any), and whether the immutable
cache header was set. -/
def handleGetVersion (s : Store) (tokenStr keyStr versionStr : String) :
    Nat × Option (Int × List Nat) × Bool :=
  match extractReadVersion tokenStr keyStr versionStr with
  | none => (400, none, false)
  | some (t, k, v) =>
      match getValueVersion s t k v with
      | Except.error e => (errorMapping e, none, false)
      | Except.ok resp => (200, resp.result, resp.cacheImmutable)

/-- Full `GET /token/:token/key/:key` pipeline: extraction and validation
(400 on failure), then the redirect handler.  Result: HTTP status and the
`Location` header, if set. -/
def handleGet (s : Store) (tokenStr keyStr pfx : String) :
    Nat × Option String :=
  match extractRead tokenStr keyStr with
  | none => (400, none)
  | some (t, k) =>
      match getValue s t k pfx with
      | GetValueResponse.failure e => (errorMapping e, none)
      | GetValueResponse.redirect loc => (307, some loc)

/-! ## Claims C1, C2, C3 — the CAS semantics of `Put`

The WHERE clause of the upsert guards only its DO UPDATE branch.  The
INSERT branch fires unconditionally when no row exists, and the clause
`$3=0` lets an expected version of 0 overwrite an existing row, so the
put semantics are looser than the spec states. -/

/-- Claim C1 is false on the code: with no existing record and
`expectedVersion = 1`, `Put` does not fail with VersionConflict and does
not leave the store unchanged — it inserts a record with version 2 and
returns `Ok 2`. -/
theorem c1_put_absent_nonzero_refuted :
    (put emptyStore "t" "k" [5] 1).2 ≠ Except.error KvError.versionConflict ∧
    (put emptyStore "t" "k" [5] 1).2 = Except.ok 2 ∧
    (put emptyStore "t" "k" [5] 1).1 "t" "k" = some ⟨2, [5]⟩ := by
  refine ⟨?_, ?_, ?_⟩ <;> decide

/-- Claim C1, amended: for every `(tenant, key)` with no existing record,
`Put` with `expectedVersion = v ≠ 0` succeeds, creating the record with
version `v + 1` and the given payload, and returns `v + 1` (it does not
fail with VersionConflict). -/
theorem c1_put_absent_nonzero (s : Store) (t k : String) (p : List Nat)
    (v : Int) (habs : s t k = none) (_hv : v ≠ 0) :
    put s t k p v = (setRecord s t k ⟨v + 1, p⟩, Except.ok (v + 1)) := by
  simp [put, habs]

/-- Witness for `c1_put_absent_nonzero` at the empty store, `v = 1`. -/
theorem c1_put_absent_nonzero_witness :
    put emptyStore "t" "k" [5] 1
      = (setRecord emptyStore "t" "k" ⟨2, [5]⟩, Except.ok 2) :=
  c1_put_absent_nonzero emptyStore "t" "k" [5] 1 rfl (by decide)

/-- Claim C2 is false on the code: after a successful creation
(`expectedVersion = 0` on the empty store, which returns `Ok 1`), repeating
the same call does not fail with VersionConflict — it succeeds again and
returns `Ok 1`, overwriting the record. -/
theorem c2_create_twice_refuted :
    (put emptyStore "t" "k" [5] 0).2 = Except.ok 1 ∧
    (put (put emptyStore "t" "k" [5] 0).1 "t" "k" [6] 0).2
      ≠ Except.error KvError.versionConflict ∧
    (put (put emptyStore "t" "k" [5] 0).1 "t" "k" [6] 0).2 = Except.ok 1 ∧
    (put (put emptyStore "t" "k" [5] 0).1 "t" "k" [6] 0).1 "t" "k"
      = some ⟨1, [6]⟩ := by
  refine ⟨?_, ?_, ?_, ?_⟩ <;> decide

/-- Claim C2, amended: for every `(tenant, key)`, `Put` with
`expectedVersion = 0` when no record exists succeeds and returns version 1;
repeating the call afterwards also succeeds, returning version 1 again and
overwriting the record in place (creation with expected version 0 does
overwrite an existing record rather than failing with VersionConflict). -/
theorem c2_put_zero_creates_and_overwrites (s : Store) (t k : String)
    (p q : List Nat) (habs : s t k = none) :
    put s t k p 0 = (setRecord s t k ⟨1, p⟩, Except.ok 1) ∧
    (put (setRecord s t k ⟨1, p⟩) t k q 0).2 = Except.ok 1 ∧
    (put (setRecord s t k ⟨1, p⟩) t k q 0).1 t k = some ⟨1, q⟩ := by
  refine ⟨by simp [put, habs], ?_, ?_⟩ <;>
    simp [put, setRecord]

/-- Witness for `c2_put_zero_creates_and_overwrites` at the empty store. -/
theorem c2_put_zero_creates_and_overwrites_witness :
    put emptyStore "t" "k" [5] 0
        = (setRecord emptyStore "t" "k" ⟨1, [5]⟩, Except.ok 1) ∧
    (put (setRecord emptyStore "t" "k" ⟨1, [5]⟩) "t" "k" [6] 0).2
        = Except.ok 1 ∧
    (put (setRecord emptyStore "t" "k" ⟨1, [5]⟩) "t" "k" [6] 0).1 "t" "k"
        = some ⟨1, [6]⟩ :=
  c2_put_zero_creates_and_overwrites emptyStore "t" "k" [5] [6] rfl

/-- Claim C3 is false on the code, in both directions it asserts:
(a) after creating `("t", "k")` at version 1, a further successful write
with `expectedVersion = 0` stores version 1 again — the stored version
repeats and is not one greater than the previous stored version; and
(b) a successful write on an absent record with `expectedVersion = 3`
stores version 4, not 1. -/
theorem c3_monotonic_versions_refuted :
    ((put (put emptyStore "t" "k" [5] 0).1 "t" "k" [6] 0).2 = Except.ok 1 ∧
      (put emptyStore "t" "k" [5] 0).1 "t" "k" = some ⟨1, [5]⟩ ∧
      (put (put emptyStore "t" "k" [5] 0).1 "t" "k" [6] 0).1 "t" "k"
        = some ⟨1, [6]⟩) ∧
    ((put emptyStore "a" "b" [7] 3).2 = Except.ok 4 ∧
      (put emptyStore "a" "b" [7] 3).1 "a" "b" = some ⟨4, [7]⟩) := by
  refine ⟨⟨?_, ?_, ?_⟩, ?_, ?_⟩ <;> decide

/-- Claim C3, amended: every successful `Put` returns exactly
`expectedVersion + 1` and stores exactly that version with the written
payload; in particular, when the write's `expectedVersion` equals the
previously stored version (the matching-CAS case) the stored version
increases by exactly 1.  (Without that restriction the stored version can
repeat or decrease: a successful write with `expectedVersion = 0` over an
existing record resets it to version 1, and a successful write on an
absent record with `expectedVersion = v ≠ 0` creates version `v + 1`,
not 1.) -/
theorem c3_success_version_is_expected_plus_one (s : Store) (t k : String)
    (p : List Nat) (v w : Int) (h : (put s t k p v).2 = Except.ok w) :
    w = v + 1 ∧ (put s t k p v).1 t k = some ⟨w, p⟩ ∧
    (∀ r : Record, s t k = some r → v = r.version → w = r.version + 1) := by
  rcases hs : s t k with _ | r
  · simp only [put, hs] at h
    injection h with h
    subst h
    refine ⟨rfl, by simp [put, hs, setRecord], ?_⟩
    intro r' hr' _
    cases hr'
  · by_cases hc : r.version = v ∨ v = 0
    · simp only [put, hs, if_pos hc] at h
      injection h with h
      subst h
      refine ⟨rfl, ?_, ?_⟩
      · simp only [put, hs, if_pos hc]
        simp [setRecord]
      · intro r' _ hv
        rw [hv]
    · simp only [put, hs, if_neg hc] at h
      cases h

/-- Witness for `c3_success_version_is_expected_plus_one` at a concrete
matching-CAS write: store holding version 1, write with expected
version 1. -/
theorem c3_success_version_is_expected_plus_one_witness :
    (2 : Int) = 1 + 1 ∧
    (put (setRecord emptyStore "t" "k" ⟨1, [5]⟩) "t" "k" [6] 1).1 "t" "k"
      = some ⟨2, [6]⟩ ∧
    (∀ r : Record, setRecord emptyStore "t" "k" ⟨1, [5]⟩ "t" "k" = some r →
      (1 : Int) = r.version → (2 : Int) = r.version + 1) :=
  c3_success_version_is_expected_plus_one
    (setRecord emptyStore "t" "k" ⟨1, [5]⟩) "t" "k" [6] 1 2 (by decide)

/-! ## Claims C4, C5 — the version-pinned read path

`GetValueVersion` signals a version mismatch with
`errors.WithMessage(err, "version mismatch")`, but `err` is `nil` on that
path and `errors.WithMessage(nil, msg)` returns `nil`; the handler thus
answers a mismatch as a success carrying a nil result, not as an error. -/

/-- Claim C4 is a code bug, evaluated at the failing input: for a store
holding `("11111111-1111-1111-1111-111111111111", "k")` at current
version 2, the pinned read of version 1 yields a success with a nil result
and no error (HTTP 200, no immutable cache header) instead of an explicit
VersionMismatch failure.  The absent-record half of the claim does hold:
the pinned read of a missing record fails with `ErrNoSuchKey` and is
answered with 404. -/
theorem c4_version_mismatch_swallowed :
    getValueVersion
        (setRecord emptyStore "11111111-1111-1111-1111-111111111111" "k" ⟨2, [7]⟩)
        "11111111-1111-1111-1111-111111111111" "k" 1
      = Except.ok ⟨none, false⟩ ∧
    handleGetVersion
        (setRecord emptyStore "11111111-1111-1111-1111-111111111111" "k" ⟨2, [7]⟩)
        "11111111-1111-1111-1111-111111111111" "k" "1"
      = (200, none, false) ∧
    getValueVersion emptyStore "t" "k" 1
      = Except.error KvError.noSuchKey ∧
    handleGetVersion emptyStore
        "11111111-1111-1111-1111-111111111111" "k" "1"
      = (404, none, false) := by
  refine ⟨?_, ?_, ?_, ?_⟩ <;> decide

/-- Claim C5 is a code bug, evaluated at the failing input: create
`("t", "k")` with payload `[1, 2]` (version 1), then update it with
expected version 1 and payload `[3, 4]`, so the successful `Put` returned
`v = 2` with payload `p = [3, 4]`.  Then `Get` returns `(p, 2)` and the
pinned read of version 2 returns `p` with the immutable cache header — but
the pinned read of version `v - 1 = 1` does not fail: it succeeds with a
nil result and a nil error. -/
theorem c5_read_after_write_superseded_read_succeeds :
    (put (put emptyStore "t" "k" [1, 2] 0).1 "t" "k" [3, 4] 1).2
      = Except.ok 2 ∧
    get (put (put emptyStore "t" "k" [1, 2] 0).1 "t" "k" [3, 4] 1).1 "t" "k"
      = Except.ok ([3, 4], 2) ∧
    getValueVersion
        (put (put emptyStore "t" "k" [1, 2] 0).1 "t" "k" [3, 4] 1).1 "t" "k" 2
      = Except.ok ⟨some (2, [3, 4]), true⟩ ∧
    getValueVersion
        (put (put emptyStore "t" "k" [1, 2] 0).1 "t" "k" [3, 4] 1).1 "t" "k" 1
      = Except.ok ⟨none, false⟩ := by
  refine ⟨?_, ?_, ?_, ?_⟩ <;> decide

/-! ## Claim C6 — the 256 KiB size boundary -/

/-- Claim C6: a write whose declared content length is exactly 262144
bytes is not rejected for size (the handler proceeds to `Put`), while any
declared length strictly greater than 262144 is rejected with
ValueTooLarge, leaving the store unchanged; the rejection happens before
the body is read, so the outcome does not depend on the body. -/
theorem c6_size_boundary (s : Store) (t k : String) (v cl : Int)
    (body body2 : List Nat) (h : maxValueSize < cl) :
    postValue s t k v 262144 body = put s t k body v ∧
    postValue s t k v cl body = (s, Except.error KvError.valueTooLarge) ∧
    postValue s t k v cl body2 = postValue s t k v cl body := by
  refine ⟨?_, ?_, ?_⟩
  · norm_num [postValue, maxValueSize]
  · simp only [postValue, if_pos h]
  · simp only [postValue, if_pos h]

/-- Witness for `c6_size_boundary` at declared length 262145. -/
theorem c6_size_boundary_witness :
    postValue emptyStore "t" "k" 0 262144 [1] = put emptyStore "t" "k" [1] 0 ∧
    postValue emptyStore "t" "k" 0 262145 [1]
      = (emptyStore, Except.error KvError.valueTooLarge) ∧
    postValue emptyStore "t" "k" 0 262145 [2]
      = postValue emptyStore "t" "k" 0 262145 [1] :=
  c6_size_boundary emptyStore "t" "k" 0 262145 [1] [2]
    (by norm_num [maxValueSize])

/-! ## Claim C7 — the redirect convention for unpinned reads -/

/-- Claim C7: for an existing record at current version `ver`, the
unpinned `GET` answers a 307 temporary redirect whose `Location` (with an
empty `X-Forwarded-Prefix`) is the version-pinned path built from tenant,
key and `ver`; the version-pinned `GET` at that version returns the stored
payload and sets the immutable cache header; and for every store in which
the record is absent, the unpinned `GET` is answered with 404. -/
theorem c7_redirect_to_pinned_path (s : Store) (t k : String) (ver : Int)
    (p : List Nat) (h : s t k = some ⟨ver, p⟩) :
    getValue s t k "" = GetValueResponse.redirect (pinnedPath t k ver) ∧
    getValueStatus s t k "" = 307 ∧
    getValueVersion s t k ver = Except.ok ⟨some (ver, p), true⟩ ∧
    (∀ s2 : Store, s2 t k = none → getValueStatus s2 t k "" = 404) := by
  refine ⟨?_, ?_, ?_, ?_⟩
  · simp [getValue, get, h]
  · simp [getValueStatus, getValue, get, h]
  · simp [getValueVersion, get, h]
  · intro s2 h2
    simp [getValueStatus, getValue, get, h2, errorMapping]

/-- Witness for `c7_redirect_to_pinned_path` at a record with version 3. -/
theorem c7_redirect_to_pinned_path_witness :
    getValue (setRecord emptyStore "t" "k" ⟨3, [9]⟩) "t" "k" ""
      = GetValueResponse.redirect (pinnedPath "t" "k" 3) ∧
    getValueStatus (setRecord emptyStore "t" "k" ⟨3, [9]⟩) "t" "k" "" = 307 ∧
    getValueVersion (setRecord emptyStore "t" "k" ⟨3, [9]⟩) "t" "k" 3
      = Except.ok ⟨some (3, [9]), true⟩ ∧
    (∀ s2 : Store, s2 "t" "k" = none → getValueStatus s2 "t" "k" "" = 404) :=
  c7_redirect_to_pinned_path (setRecord emptyStore "t" "k" ⟨3, [9]⟩)
    "t" "k" 3 [9] (by decide)

/-! ## Claim C8 — request validation precedes the store

The pinned-read handler validates its version segment with
`validate:"required,min=1"`, but the write handler's `Version int` field
carries no validation tag at all, so a negative version in a write path is
parsed and passed straight to `KVStore.Put`. -/

/-- Claim C8 is false on the code: a write whose version segment is `-1`
(well-formed tenant, nonempty key) is not rejected — the store is invoked
and, on the empty store, a record with version 0 is created and the
request is answered 200. -/
theorem c8_negative_write_version_reaches_store :
    (handlePost emptyStore "11111111-1111-1111-1111-111111111111" "k" "-1"
        0 []).2 = 200 ∧
    (handlePost emptyStore "11111111-1111-1111-1111-111111111111" "k" "-1"
        0 []).1 "11111111-1111-1111-1111-111111111111" "k"
      = some ⟨0, []⟩ := by
  refine ⟨?_, ?_⟩ <;> decide

/-- Claim C8, amended: the tenant segment must parse as a well-formed
(nonzero) 128-bit identifier, the key must be non-empty, and the version
segment must parse as an integer — any integer, negative included, for a
write, but at least 1 for a pinned read; a request failing these checks is
rejected with 400 without the store being invoked (the write pipeline
leaves the store unchanged).  The write path does not require the version
to be non-negative. -/
theorem c8_validation_before_store (s : Store)
    (tokenStr keyStr versionStr : String) (cl : Int) (body : List Nat) :
    (extractWrite tokenStr keyStr versionStr = none →
      handlePost s tokenStr keyStr versionStr cl body = (s, 400)) ∧
    (uuidWellFormed tokenStr = false ∨ keyStr = "" ∨
        parseGoInt versionStr = none →
      extractWrite tokenStr keyStr versionStr = none ∧
      extractReadVersion tokenStr keyStr versionStr = none ∧
      extractRead tokenStr keyStr = none ∨ parseGoInt versionStr = none) ∧
    (extractReadVersion tokenStr keyStr versionStr = none →
      handleGetVersion s tokenStr keyStr versionStr = (400, none, false)) ∧
    (extractRead tokenStr keyStr = none →
      handleGet s tokenStr keyStr "" = (400, none)) ∧
    (∀ t k v, extractReadVersion tokenStr keyStr versionStr = some (t, k, v)
      → 1 ≤ v) ∧
    (∀ t k v, extractWrite tokenStr keyStr versionStr = some (t, k, v) →
      uuidWellFormed tokenStr = true ∧ uuidNonZero tokenStr = true ∧
      keyStr ≠ "" ∧ parseGoInt versionStr = some v) := by
  refine ⟨?_, ?_, ?_, ?_, ?_, ?_⟩
  · intro h
    simp only [handlePost, h]
  · intro h
    rcases hp : parseGoInt versionStr with _ | v
    · exact Or.inr rfl
    · refine Or.inl ⟨?_, ?_, ?_⟩
      · simp only [extractWrite, hp]
        rw [if_neg]
        rintro ⟨h1, _, h3⟩
        rcases h with h | h | h
        · rw [h1] at h
          cases h
        · exact h3 h
        · rw [hp] at h
          cases h
      · simp only [extractReadVersion, hp]
        rw [if_neg]
        rintro ⟨h1, _, h3, _⟩
        rcases h with h | h | h
        · rw [h1] at h
          cases h
        · exact h3 h
        · rw [hp] at h
          cases h
      · simp only [extractRead]
        rw [if_neg]
        rintro ⟨h1, _, h3⟩
        rcases h with h | h | h
        · rw [h1] at h
          cases h
        · exact h3 h
        · rw [hp] at h
          cases h
  · intro h
    simp only [handleGetVersion, h]
  · intro h
    simp only [handleGet, h]
  · intro t k v h
    rcases hp : parseGoInt versionStr with _ | v2
    · simp only [extractReadVersion, hp] at h
      cases h
    · simp only [extractReadVersion, hp] at h
      by_cases hc : uuidWellFormed tokenStr ∧ uuidNonZero tokenStr ∧
          keyStr ≠ "" ∧ 1 ≤ v2
      · rw [if_pos hc] at h
        simp only [Option.some.injEq, Prod.mk.injEq] at h
        obtain ⟨-, -, rfl⟩ := h
        exact hc.2.2.2
      · rw [if_neg hc] at h
        cases h
  · intro t k v h
    rcases hp : parseGoInt versionStr with _ | v2
    · simp only [extractWrite, hp] at h
      cases h
    · simp only [extractWrite, hp] at h
      by_cases hc : uuidWellFormed tokenStr ∧ uuidNonZero tokenStr ∧
          keyStr ≠ ""
      · rw [if_pos hc] at h
        simp only [Option.some.injEq, Prod.mk.injEq] at h
        obtain ⟨-, -, rfl⟩ := h
        exact ⟨hc.1, hc.2.1, hc.2.2, rfl⟩
      · rw [if_neg hc] at h
        cases h

/-- Witness for `c8_validation_before_store`: the malformed tenant `"x"`
is rejected with 400 by all three pipelines, with the store untouched. -/
theorem c8_validation_before_store_witness :
    handlePost emptyStore "x" "k" "1" 0 [] = (emptyStore, 400) ∧
    handleGetVersion emptyStore "x" "k" "1" = (400, none, false) ∧
    handleGet emptyStore "x" "k" "" = (400, none) :=
  ⟨(c8_validation_before_store emptyStore "x" "k" "1" 0 []).1 (by decide),
   (c8_validation_before_store emptyStore "x" "k" "1" 0 []).2.2.1 (by decide),
   (c8_validation_before_store emptyStore "x" "k" "1" 0 []).2.2.2.1 (by decide)⟩

/-! ## Claim C9 — the domain-error-to-status mapping -/

/-- Claim C9: the `init()` registration maps `ErrNoSuchKey` to 404,
`ErrVersionConflict` to 409 and `ErrValueTooLarge` to 413, and every
pipeline answers a handler-body domain error with exactly that status:
whichever error the write body, the pinned-read body or the unpinned-read
body produces, the HTTP status is its registered mapping. -/
theorem c9_error_status_mapping (s : Store)
    (tokenStr keyStr versionStr : String) (cl : Int) (body : List Nat) :
    errorMapping KvError.noSuchKey = 404 ∧
    errorMapping KvError.versionConflict = 409 ∧
    errorMapping KvError.valueTooLarge = 413 ∧
    (∀ t k v e, extractWrite tokenStr keyStr versionStr = some (t, k, v) →
      (postValue s t k v cl body).2 = Except.error e →
      (handlePost s tokenStr keyStr versionStr cl body).2 = errorMapping e) ∧
    (∀ t k v e, extractReadVersion tokenStr keyStr versionStr = some (t, k, v)
      → getValueVersion s t k v = Except.error e →
      (handleGetVersion s tokenStr keyStr versionStr).1 = errorMapping e) ∧
    (∀ t k e pfx, extractRead tokenStr keyStr = some (t, k) →
      getValue s t k pfx = GetValueResponse.failure e →
      (handleGet s tokenStr keyStr pfx).1 = errorMapping e) := by
  refine ⟨rfl, rfl, rfl, ?_, ?_, ?_⟩
  · intro t k v e h1 h2
    rcases hp : postValue s t k v cl body with ⟨s2, r⟩
    rw [hp] at h2
    simp only at h2
    subst h2
    simp only [handlePost, h1, hp]
  · intro t k v e h1 h2
    simp only [handleGetVersion, h1, h2]
  · intro t k e pfx h1 h2
    simp only [handleGet, h1, h2]

/-- Witness for `c9_error_status_mapping`: an oversize write (declared
length 262145) through the full pipeline is answered 413. -/
theorem c9_error_status_mapping_witness :
    (handlePost emptyStore "11111111-1111-1111-1111-111111111111" "k" "1"
        262145 []).2 = 413 :=
  (c9_error_status_mapping emptyStore
      "11111111-1111-1111-1111-111111111111" "k" "1" 262145 []).2.2.2.1
    "11111111-1111-1111-1111-111111111111" "k" 1 KvError.valueTooLarge
    (by decide) (by decide)

end Kv
